import Mathlib

/-!
Verification of `src/twitter_api.py` against its specification.

The file shallowly embeds the two cores of the program:

* the cursor-based pagination loop `search_tweets` (lines 48-100 of the
  source), modelled as a fuel-indexed state machine over an arbitrary
  sequence of upstream page responses, and
* the aggregation pipeline `process_results` / `group_dataframe`
  (lines 26-45 and 112-158), modelled as pure functions over a parsed
  record log.

Machine-level conventions: cursors and items are arbitrary types with
decidable equality (instantiated with `Nat` in concrete runs); Python
exceptions become `Option`/break outcomes; `dict.get` with a default
becomes `Option.getD`.
-/

namespace TwitterApi

/-! ### Pagination engine (source lines 48-100)

One upstream page response, as observed by the loop body.

* `meta_next_token = none` models `response.meta["next_token"]` raising
  `AttributeError`/`KeyError` (field absent); `some none` models the field
  being present but holding `None`.
* `data = none` models `response.data` not being iterable-with-`.data`
  (the `AttributeError` caught at source line 83); an inner `none` models
  one `result.data` access failing mid-iteration.
-/
structure PageResponse (α κ : Type) where
  meta_next_token : Option (Option κ)
  data : Option (List (Option α))

/-- The loop state of `search_tweets`: the local variables of the source
(lines 53-56) plus the observable trace (requests issued, items yielded). -/
structure PagState (α κ : Type) where
  pagination_token : Option κ
  count : Nat
  pagination_tokens : List κ
  requests : List (Option κ)
  yielded : List (α × Option κ)

/-- Initial state (source lines 53-56): no cursor, nothing seen. -/
def initState {α κ : Type} : PagState α κ :=
  ⟨none, 0, [], [], []⟩

/-- Definition `max_results = min(100, result_count)` (source line 55): the page size
passed upstream on every request. -/
def page_size (result_count : Nat) : Nat :=
  min 100 result_count

/-- The `for result in response.data` loop (source lines 78-82): yields the
prefix of extractable results; the flag is `false` when a `result.data`
access fails, which breaks the whole `while` loop. -/
def yieldLoop {α : Type} : List (Option α) → List α × Bool
  | [] => ([], true)
  | some a :: rest =>
    let r := yieldLoop rest
    (a :: r.1, r.2)
  | none :: _ => ([], false)

/-- One iteration of the `while True` loop of `search_tweets`
(source lines 57-100) applied to the response `resp` of the request it
issues.  Returns the successor state and `true` iff the loop continues.

Branches, in source order: record the request (line 58); break if the next
token is unreadable (lines 71-75); yield the extractable prefix of the
page, stamping each item with the *new* token (lines 77-85), breaking on a
mid-page failure; break if the token did not advance (line 88); break if
the token was already collected (line 91) — `None` is never a member of
`pagination_tokens` (only non-`None` tokens are added at line 97), so that
test is decided in the `some` branch; assign the token and break if it is
`None` (lines 94-96); record it and break once `count >= result_count`
(lines 97-100). -/
def stepIter {α κ : Type} [DecidableEq κ] (resp : PageResponse α κ)
    (result_count : Nat) (s : PagState α κ) : PagState α κ × Bool :=
  let reqs := s.requests ++ [s.pagination_token]
  match resp.meta_next_token with
  | none => ({ s with requests := reqs }, false)
  | some next_token =>
    match resp.data with
    | none => ({ s with requests := reqs }, false)
    | some items =>
      let ys := (yieldLoop items).1
      let yielded := s.yielded ++ ys.map (fun a => (a, next_token))
      let count := s.count + ys.length
      let afterYield : PagState α κ := { s with requests := reqs, yielded := yielded, count := count }
      if (yieldLoop items).2 = false then
        (afterYield, false)
      else if next_token = s.pagination_token then
        (afterYield, false)
      else
        match next_token with
        | none =>
          ({ afterYield with pagination_token := none }, false)
        | some t =>
          if t ∈ s.pagination_tokens then
            (afterYield, false)
          else
            let advanced : PagState α κ := { afterYield with pagination_token := some t, pagination_tokens := s.pagination_tokens ++ [t] }
            if result_count ≤ count then
              (advanced, false)
            else
              (advanced, true)

/-- Fuel-indexed unfolding of the `while True` loop.  `up i` is the
upstream response to the `i`-th page request (the request count so far is
`s.requests.length`).  The flag is `true` iff the loop broke out by itself
within the given fuel. -/
def runAux {α κ : Type} [DecidableEq κ] (up : Nat → PageResponse α κ)
    (result_count : Nat) : Nat → PagState α κ → PagState α κ × Bool
  | 0, s => (s, false)
  | fuel + 1, s =>
    let r := stepIter (up s.requests.length) result_count s
    if r.2 then runAux up result_count fuel r.1 else (r.1, true)

/-- Function `search_tweets(user_id, result_count)` (source lines 48-100), run
against the upstream response sequence `up` with the given fuel. -/
def search_tweets {α κ : Type} [DecidableEq κ] (up : Nat → PageResponse α κ)
    (result_count fuel : Nat) : PagState α κ × Bool :=
  runAux up result_count fuel initState

/-! ### Aggregation engine (source lines 26-45 and 112-158)

The record log is parsed line by line with `json.loads`; a line that does
not parse is modelled as `none` in the log list.  A parsed record carries
`created_at` and `id` (read with mandatory indexing, source lines 121-122)
and an optional `entities` payload (`data.get("entities")`, line 119). -/

/-- One `mentions` sub-record: `mention.get("username", "")` (line 141)
reads an optional field. -/
structure MentionRec where
  username : Option String

/-- One `annotations` sub-record: `annotation.get("type")` (line 127) and
`annotation.get("normalized_text", "")` (line 128) read optional fields. -/
structure AnnotationRec where
  annotation_type : Option String
  normalized_text : Option String

/-- The optional `entities` payload: `entities.get("annotations", [])`
(line 124) and `entities.get("mentions", [])` (line 138) default absent
sub-lists to empty. -/
structure Entities where
  annotations : Option (List AnnotationRec)
  mentions : Option (List MentionRec)

/-- One parsed log record. -/
structure RawRecord where
  entities : Option Entities
  created_at : Nat
  id : Nat

/-- A row appended to `all_mentions` (source lines 142-148). -/
structure MentionRow where
  username : String
  tweet_created_at : Nat
  tweet_id : Nat
  deriving DecidableEq

/-- A row appended to `all_annotations` (source lines 129-136). -/
structure AnnotationRow where
  normalized_text : String
  annotation_type : Option String
  tweet_created_at : Nat
  tweet_id : Nat
  deriving DecidableEq

/-- The per-record body of the read loop (source lines 119-148).

`data.get("entities")` yields `None` when the key is absent; the source
then calls `entities.get("annotations", [])` on that `None`, which raises
`AttributeError` — modelled by returning `none`.  Otherwise every
annotation and mention sub-record produces exactly one output row, with
missing `normalized_text`/`username` defaulting to `""`. -/
def processLine (data : RawRecord) : Option (List MentionRow × List AnnotationRow) :=
  match data.entities with
  | none => none
  | some entities =>
    let annotations := entities.annotations.getD []
    let anns : List AnnotationRow := annotations.map (fun ann =>
      ⟨ann.normalized_text.getD "", ann.annotation_type,
        data.created_at, data.id⟩)
    let mentions := entities.mentions.getD []
    let ms : List MentionRow := mentions.map (fun mention =>
      ⟨mention.username.getD "", data.created_at, data.id⟩)
    some (ms, anns)

/-- The `for row in file.readlines()` loop (source lines 117-148): build
`all_mentions` and `all_annotations` in log order; the first line that
fails to parse (`none` entry) or fails inside its body aborts the run. -/
def collectRows : List (Option RawRecord) → Option (List MentionRow × List AnnotationRow)
  | [] => some ([], [])
  | none :: _ => none
  | some data :: rest =>
    match processLine data with
    | none => none
    | some (ms, anns) =>
      match collectRows rest with
      | none => none
      | some (restMs, restAnns) => some (ms ++ restMs, anns ++ restAnns)

/-- The f-string URL template of source line 43. -/
def tweet_url (tweet_id : Nat) : String :=
  "https://twitter.com/robotventures/status/" ++ toString tweet_id

/-- The `"max"` aggregation of pandas over a group column (source lines
37-38); on the nonempty groups produced by `groupby` this is the maximum. -/
def natMax (l : List Nat) : Nat :=
  l.foldr max 0

/-- One aggregated row as produced by `.agg(...)` (source lines 35-39):
`last_tweet_url` still holds the raw max tweet id, before the URL `map`
of lines 42-44 is applied. -/
structure AggRow where
  key : String
  count : Nat
  last_tweeted_at : Nat
  last_tweet_url : Nat
  deriving DecidableEq

/-- One row of the final summary table, after the URL map. -/
structure SummaryRow where
  key : String
  count : Nat
  last_tweeted_at : Nat
  last_tweet_url : String
  deriving DecidableEq

/-- Comparator of `sort_values("count", ascending=False)` (line 40). -/
def countDesc (a b : AggRow) : Prop :=
  b.count ≤ a.count

instance : DecidableRel countDesc := fun a b => Nat.decLe b.count a.count

/-- Function `group_dataframe(dataframe, grouping_field)` (source lines 26-45),
with the dataframe as a row list and the column names as projections.

`pd.DataFrame([])` built from an empty row list has no columns at all, so
`.groupby(grouping_field)` raises `KeyError` — modelled by `none`.
Otherwise: `groupby` forms one group per distinct key, `.agg` computes the
count and the column maxima, `.sort_values("count", ascending=False)`
orders rows by descending count, and the final `map` renders
`last_tweet_url` through the URL template.  The order of rows with equal
counts is implementation-defined in the source (pandas groups keys in
ascending order and then applies an unstable quicksort); the model fixes
a deterministic order (keys in first-group-occurrence order, stable sort)
without reproducing that incidental tie order. -/
def group_dataframe {ρ : Type} (rows : List ρ) (grouping_field : ρ → String)
    (tweet_created_at : ρ → Nat) (tweet_id : ρ → Nat) : Option (List SummaryRow) :=
  match rows with
  | [] => none
  | _ :: _ =>
    let keys := (rows.map grouping_field).dedup
    let aggregated : List AggRow := keys.map (fun k =>
      let grp := rows.filter (fun r => grouping_field r == k)
      ⟨k, grp.length, natMax (grp.map tweet_created_at), natMax (grp.map tweet_id)⟩)
    let sorted := aggregated.insertionSort countDesc
    some (sorted.map (fun r =>
      ⟨r.key, r.count, r.last_tweeted_at, tweet_url r.last_tweet_url⟩))

/-- Minimal CSV quoting as applied by pandas `to_csv` (QUOTE_MINIMAL):
a field containing a comma, quote or newline is quoted, with inner
quotes doubled. -/
def escapeQuotes : List Char → List Char
  | [] => []
  | c :: rest => if c = '"' then '"' :: '"' :: escapeQuotes rest else c :: escapeQuotes rest

def csvField (s : String) : String :=
  if s.data.any (fun c => c == ',' || c == '"' || c == '\n') then
    "\"" ++ String.mk (escapeQuotes s.data) ++ "\""
  else s

/-- The `to_csv` rendering of one summary table (source lines 157-158): the
group key is the index column, then `count,last_tweeted_at,last_tweet_url`. -/
def to_csv (index_name : String) (rows : List SummaryRow) : String :=
  index_name ++ ",count,last_tweeted_at,last_tweet_url\n" ++
    String.join (rows.map (fun r =>
      csvField r.key ++ "," ++ toString r.count ++ "," ++
        toString r.last_tweeted_at ++ "," ++ csvField r.last_tweet_url ++ "\n"))

/-- Function `process_results()` (source lines 112-158) as a function of the parsed
record log: collect rows, group both tables, then render both CSV files.
Any uncaught exception on the way (`none`) aborts the run before either
output file is written, so the result is all-or-nothing. -/
def process_results (log : List (Option RawRecord)) : Option (String × String) :=
  match collectRows log with
  | none => none
  | some (all_mentions, all_annotations) =>
    match group_dataframe all_mentions MentionRow.username
        MentionRow.tweet_created_at MentionRow.tweet_id with
    | none => none
    | some mention_aggregation =>
      match group_dataframe all_annotations AnnotationRow.normalized_text
          AnnotationRow.tweet_created_at AnnotationRow.tweet_id with
      | none => none
      | some annotation_aggregation =>
        some (to_csv "username" mention_aggregation,
          to_csv "normalized_text" annotation_aggregation)

/-- The invariant maintained between loop iterations: no request cursor is
ever repeated, every cursor requested so far is in `pagination_tokens`,
and the cursor for the next request, once advanced, is already recorded
in `pagination_tokens`. -/
def PagInv {α κ : Type} (s : PagState α κ) : Prop :=
  s.requests.Nodup ∧ s.pagination_token ∉ s.requests ∧
    (∀ c : κ, some c ∈ s.requests → c ∈ s.pagination_tokens) ∧
    (∀ c : κ, s.pagination_token = some c → c ∈ s.pagination_tokens)

instance : IsTotal AggRow countDesc :=
  ⟨fun a b => le_total b.count a.count⟩

instance : IsTrans AggRow countDesc :=
  ⟨fun _ _ _ hab hbc => le_trans hbc hab⟩

/-! ### Structural lemmas about one pagination step -/

theorem yieldLoop_length_le {α : Type} (items : List (Option α)) :
    (yieldLoop items).1.length ≤ items.length := by
  induction items with
  | nil => simp [yieldLoop]
  | cons x rest ih =>
    cases x with
    | none => simp [yieldLoop]
    | some a => simpa [yieldLoop] using ih

theorem yieldLoop_ok_eq {α : Type} (items : List (Option α)) :
    (yieldLoop items).2 = true → (yieldLoop items).1.length = items.length := by
  induction items with
  | nil => simp [yieldLoop]
  | cons x rest ih =>
    cases x with
    | none => simp [yieldLoop]
    | some a =>
      intro h
      simp only [yieldLoop, List.length_cons]
      exact congrArg (· + 1) (ih (by simpa [yieldLoop] using h))

theorem stepIter_requests {α κ : Type} [DecidableEq κ] (resp : PageResponse α κ)
    (rc : Nat) (s : PagState α κ) :
    (stepIter resp rc s).1.requests = s.requests ++ [s.pagination_token] := by
  rcases resp with ⟨meta, data⟩
  cases meta <;> cases data <;>
    simp only [stepIter] <;>
    (try rfl) <;>
    (repeat' split) <;> rfl

theorem stepIter_count_mono {α κ : Type} [DecidableEq κ] (resp : PageResponse α κ)
    (rc : Nat) (s : PagState α κ) :
    s.count ≤ (stepIter resp rc s).1.count := by
  rcases resp with ⟨meta, data⟩
  cases meta <;> cases data <;>
    simp only [stepIter] <;>
    (try exact Nat.le_refl _) <;>
    (repeat' split) <;> exact Nat.le_add_right _ _

theorem stepIter_count_le {α κ : Type} [DecidableEq κ] (resp : PageResponse α κ)
    (rc : Nat) (s : PagState α κ) (P : Nat)
    (hP : ∀ items, resp.data = some items → items.length ≤ P) :
    (stepIter resp rc s).1.count ≤ s.count + P := by
  rcases resp with ⟨meta, data⟩
  cases meta <;> cases data <;>
    simp only [stepIter] <;>
    (try exact Nat.le_add_right _ _) <;>
    (repeat' split) <;>
    exact Nat.add_le_add_left
      (Nat.le_trans (yieldLoop_length_le _) (hP _ rfl)) _

theorem stepIter_count_yielded {α κ : Type} [DecidableEq κ]
    (resp : PageResponse α κ) (rc : Nat) (s : PagState α κ)
    (h : s.count = s.yielded.length) :
    (stepIter resp rc s).1.count = (stepIter resp rc s).1.yielded.length := by
  rcases resp with ⟨meta, data⟩
  cases meta <;> cases data <;>
    simp only [stepIter] <;>
    (try exact h) <;>
    (repeat' split) <;>
    simp [h, Nat.add_comm]

theorem stepIter_cont_lt {α κ : Type} [DecidableEq κ] (resp : PageResponse α κ)
    (rc : Nat) (s : PagState α κ) :
    (stepIter resp rc s).2 = true → (stepIter resp rc s).1.count < rc := by
  rcases resp with ⟨meta, data⟩
  cases meta <;> cases data <;> simp only [stepIter] <;> (repeat' split) <;>
    intro hcont <;>
    first
    | exact absurd hcont (fun h => Bool.false_ne_true h)
    | (rename_i hlt; exact Nat.lt_of_not_le hlt)

theorem stepIter_cont_succ {α κ : Type} [DecidableEq κ] (resp : PageResponse α κ)
    (rc : Nat) (s : PagState α κ)
    (hne : ∀ items, resp.data = some items → items ≠ []) :
    (stepIter resp rc s).2 = true →
      s.count + 1 ≤ (stepIter resp rc s).1.count := by
  rcases resp with ⟨meta, data⟩
  cases meta with
  | none => intro hcont; exact absurd hcont (fun h => Bool.false_ne_true h)
  | some nt =>
    cases data with
    | none => intro hcont; exact absurd hcont (fun h => Bool.false_ne_true h)
    | some items =>
      have hitems : items ≠ [] := hne items rfl
      simp only [stepIter]
      repeat' split
      all_goals intro hcont
      all_goals try exact absurd hcont (fun h => Bool.false_ne_true h)
      refine Nat.add_le_add_left ?_ _
      have hok : (yieldLoop items).2 = true := by
        cases hb : (yieldLoop items).2 with
        | true => rfl
        | false => simp_all
      have hlen := yieldLoop_ok_eq items hok
      cases items with
      | nil => exact absurd rfl hitems
      | cons y ys => simp [hlen]

/-! ### Run-level lemmas about the pagination loop -/

theorem tokenRecorded {κ : Type} (l : List κ) {t c : κ} (hc : t = c) :
    c ∈ l ++ [t] := by
  subst hc; simp

theorem pagInv_advance {α κ : Type} (s : PagState α κ) (t : κ)
    (h1 : s.requests.Nodup) (h2 : s.pagination_token ∉ s.requests)
    (h3 : ∀ c : κ, some c ∈ s.requests → c ∈ s.pagination_tokens)
    (h4 : ∀ c : κ, s.pagination_token = some c → c ∈ s.pagination_tokens)
    (hne2 : ¬some t = s.pagination_token) (hmem : t ∉ s.pagination_tokens)
    (count' : Nat) (yielded' : List (α × Option κ)) :
    PagInv ⟨some t, count', s.pagination_tokens ++ [t],
      s.requests ++ [s.pagination_token], yielded'⟩ := by
  refine ⟨by simp [List.nodup_append, h1, h2], ?_, ?_, ?_⟩
  · intro hmem2
    rcases (by simpa using hmem2 :
        some t ∈ s.requests ∨ some t = s.pagination_token) with h | h
    · exact hmem (h3 t h)
    · exact hne2 h
  · intro c hc
    rcases (by simpa using hc :
        some c ∈ s.requests ∨ some c = s.pagination_token) with h | h
    · simp [h3 c h]
    · simp [h4 c h.symm]
  · intro c hc
    exact tokenRecorded _ (Option.some_injective κ hc)

theorem stepIter_inv {α κ : Type} [DecidableEq κ] (resp : PageResponse α κ)
    (rc : Nat) (s : PagState α κ) (hInv : PagInv s) :
    (stepIter resp rc s).1.requests.Nodup ∧
      (∀ c : κ, (stepIter resp rc s).1.pagination_token = some c →
        c ∈ (stepIter resp rc s).1.pagination_tokens) ∧
      ((stepIter resp rc s).2 = true → PagInv (stepIter resp rc s).1) := by
  obtain ⟨h1, h2, h3, h4⟩ := hInv
  have hnd : (s.requests ++ [s.pagination_token]).Nodup := by
    simp [List.nodup_append, h1, h2]
  rcases resp with ⟨meta, data⟩
  cases meta <;> cases data <;> simp only [stepIter] <;> (repeat' split) <;>
    first
    | exact ⟨hnd, h4, fun h => absurd h Bool.false_ne_true⟩
    | exact ⟨hnd, fun c hc => Option.noConfusion hc,
        fun h => absurd h Bool.false_ne_true⟩
    | exact ⟨hnd, fun c hc => tokenRecorded _ (Option.some_injective κ hc),
        fun h => absurd h Bool.false_ne_true⟩
    | exact ⟨hnd, fun c hc => tokenRecorded _ (Option.some_injective κ hc),
        fun _ => pagInv_advance s _ h1 h2 h3 h4 (by assumption) (by assumption) _ _⟩

theorem runAux_requests_len {α κ : Type} [DecidableEq κ]
    (up : Nat → PageResponse α κ) (rc : Nat) :
    ∀ (fuel : Nat) (s : PagState α κ),
      (runAux up rc fuel s).1.requests.length ≤ s.requests.length + fuel := by
  intro fuel
  induction fuel with
  | zero => intro s; simp [runAux]
  | succ f ih =>
    intro s
    simp only [runAux]
    have hreq := stepIter_requests (up s.requests.length) rc s
    split
    · calc (runAux up rc f (stepIter (up s.requests.length) rc s).1).1.requests.length
          ≤ (stepIter (up s.requests.length) rc s).1.requests.length + f :=
            ih _
        _ = s.requests.length + 1 + f := by rw [hreq]; simp
        _ ≤ s.requests.length + (f + 1) := by omega
    · simp only [hreq]
      simp

theorem runAux_nodup {α κ : Type} [DecidableEq κ]
    (up : Nat → PageResponse α κ) (rc : Nat) :
    ∀ (fuel : Nat) (s : PagState α κ), PagInv s →
      (runAux up rc fuel s).1.requests.Nodup ∧
        (∀ c : κ, (runAux up rc fuel s).1.pagination_token = some c →
          c ∈ (runAux up rc fuel s).1.pagination_tokens) := by
  intro fuel
  induction fuel with
  | zero =>
    intro s hInv
    exact ⟨hInv.1, hInv.2.2.2⟩
  | succ f ih =>
    intro s hInv
    obtain ⟨ha, hb, hc⟩ := stepIter_inv (up s.requests.length) rc s hInv
    simp only [runAux]
    split
    · exact ih _ (hc (by assumption))
    · exact ⟨ha, hb⟩

theorem runAux_finishes {α κ : Type} [DecidableEq κ]
    (up : Nat → PageResponse α κ) (rc : Nat)
    (hne : ∀ i items, (up i).data = some items → items ≠ []) :
    ∀ (f : Nat) (s : PagState α κ), rc ≤ s.count + f →
      (runAux up rc (f + 1) s).2 = true := by
  intro f
  induction f with
  | zero =>
    intro s hs
    simp only [runAux]
    split
    · rename_i hcont
      have h1 := stepIter_cont_lt (up s.requests.length) rc s hcont
      have h2 := stepIter_count_mono (up s.requests.length) rc s
      omega
    · rfl
  | succ f ih =>
    intro s hs
    rw [show f + 1 + 1 = (f + 1) + 1 from rfl]
    simp only [runAux]
    split
    · rename_i hcont
      have h1 := stepIter_cont_succ (up s.requests.length) rc s
        (fun items h => hne _ items h) hcont
      exact ih _ (by omega)
    · rfl

theorem runAux_count_bound {α κ : Type} [DecidableEq κ]
    (up : Nat → PageResponse α κ) (rc P : Nat)
    (hP : ∀ i items, (up i).data = some items → items.length ≤ P) :
    ∀ (fuel : Nat) (s : PagState α κ),
      s.count = s.yielded.length → (s.count = 0 ∨ s.count < rc) →
      (runAux up rc fuel s).1.count ≤ rc - 1 + P ∧
        (runAux up rc fuel s).1.count = (runAux up rc fuel s).1.yielded.length := by
  intro fuel
  induction fuel with
  | zero =>
    intro s h1 h2
    simp only [runAux]
    exact ⟨by omega, h1⟩
  | succ f ih =>
    intro s h1 h2
    have hle := stepIter_count_le (up s.requests.length) rc s P
      (fun items h => hP _ items h)
    have hy := stepIter_count_yielded (up s.requests.length) rc s h1
    simp only [runAux]
    split
    · rename_i hcont
      have hlt := stepIter_cont_lt (up s.requests.length) rc s hcont
      exact ih _ hy (Or.inr hlt)
    · refine ⟨?_, hy⟩
      show (stepIter (up s.requests.length) rc s).1.count ≤ rc - 1 + P
      omega

/-! ### Pagination claims -/

/-- C1, counterexample: with `result_count = 3` (so `page_size = 3` and the
claimed bound is `ceil(3/3) + 1 = 2` page requests) an upstream that
returns one item per page under always-fresh cursors makes `search_tweets`
terminate only after 3 page requests, exceeding the claimed bound. -/
theorem C1_counterexample :
    (search_tweets (fun i => (⟨some (some i), some [some 0]⟩ :
        PageResponse Nat Nat)) 3 10).2 = true ∧
      (search_tweets (fun i => (⟨some (some i), some [some 0]⟩ :
        PageResponse Nat Nat)) 3 10).1.requests.length = 3 ∧
      ¬((search_tweets (fun i => (⟨some (some i), some [some 0]⟩ :
        PageResponse Nat Nat)) 3 10).1.requests.length
          ≤ (3 + page_size 3 - 1) / page_size 3 + 1) := by
  decide

/-- C1 (amended): for every upstream response sequence in which every
extractable page carries at least one item, `search_tweets` terminates,
issuing at most `result_count + 1` page requests (the originally claimed
`ceil(maxResults / pageSize) + 1` bound fails because upstream pages may
carry fewer than `pageSize` items). -/
theorem C1_pagination_terminates {α κ : Type} [DecidableEq κ]
    (up : Nat → PageResponse α κ) (result_count : Nat)
    (hne : ∀ i items, (up i).data = some items → items ≠ []) :
    (search_tweets up result_count (result_count + 1)).2 = true ∧
      (search_tweets up result_count (result_count + 1)).1.requests.length
        ≤ result_count + 1 := by
  constructor
  · exact runAux_finishes up result_count hne result_count initState
      (by simp [initState])
  · simpa [initState] using
      runAux_requests_len up result_count (result_count + 1)
        (initState : PagState α κ)

/-- Witness for C1 (amended) at the one-item-per-page upstream with
`result_count = 3`. -/
theorem C1_pagination_terminates_witness :
    (search_tweets (fun i => (⟨some (some i), some [some 0]⟩ :
        PageResponse Nat Nat)) 3 (3 + 1)).2 = true ∧
      (search_tweets (fun i => (⟨some (some i), some [some 0]⟩ :
        PageResponse Nat Nat)) 3 (3 + 1)).1.requests.length ≤ 3 + 1 :=
  C1_pagination_terminates (fun i => (⟨some (some i), some [some 0]⟩ :
    PageResponse Nat Nat)) 3
    (fun _ items h => by injection h with h2; subst h2; simp)

/-- C4, counterexample: the upstream's first page carries the item `42`
but has no next-cursor field; `search_tweets` stops immediately and yields
nothing, contradicting the claim that the page's items are yielded before
stopping. -/
theorem C4_counterexample :
    (search_tweets (fun _ => (⟨none, some [some 42]⟩ :
        PageResponse Nat Nat)) 5 10).1.yielded = [] ∧
      (search_tweets (fun _ => (⟨none, some [some 42]⟩ :
        PageResponse Nat Nat)) 5 10).2 = true ∧
      ((⟨none, some [some 42]⟩ : PageResponse Nat Nat)).data
        = some [some 42] := by
  decide

/-- C4 (amended): a page response whose next-cursor field is *absent*
stops the loop without yielding any of that page's items (the
cannot-extract-token diagnostic path); only a page whose next-cursor field
is *present but null* first yields every extractable item, stamped with
that null cursor value, and then stops. -/
theorem C4_absent_cursor {α κ : Type} [DecidableEq κ]
    (resp : PageResponse α κ) (rc : Nat) (s : PagState α κ) :
    (resp.meta_next_token = none →
      (stepIter resp rc s).2 = false ∧
        (stepIter resp rc s).1.yielded = s.yielded) ∧
    (∀ items, resp.meta_next_token = some none → resp.data = some items →
      (stepIter resp rc s).2 = false ∧
        (stepIter resp rc s).1.yielded =
          s.yielded ++ (yieldLoop items).1.map (fun a => (a, (none : Option κ)))) := by
  rcases resp with ⟨meta, data⟩
  constructor
  · rintro rfl
    exact ⟨rfl, rfl⟩
  · rintro items rfl rfl
    simp only [stepIter]
    repeat' split
    all_goals exact ⟨rfl, rfl⟩

/-- Witness for C4 (amended): the absent-cursor page from the
counterexample, and a present-but-null-cursor page with two items. -/
theorem C4_absent_cursor_witness :
    ((stepIter (⟨none, some [some 42]⟩ : PageResponse Nat Nat) 5 initState).2 = false ∧
      (stepIter (⟨none, some [some 42]⟩ : PageResponse Nat Nat) 5
        initState).1.yielded = (initState : PagState Nat Nat).yielded) ∧
    ((stepIter (⟨some none, some [some 7, some 8]⟩ : PageResponse Nat Nat) 5
        initState).2 = false ∧
      (stepIter (⟨some none, some [some 7, some 8]⟩ : PageResponse Nat Nat) 5
        initState).1.yielded =
        (initState : PagState Nat Nat).yielded ++
          (yieldLoop [some 7, some 8]).1.map (fun a => (a, (none : Option Nat)))) :=
  ⟨(C4_absent_cursor (⟨none, some [some 42]⟩ : PageResponse Nat Nat) 5
      initState).1 rfl,
    (C4_absent_cursor (⟨some none, some [some 7, some 8]⟩ : PageResponse Nat Nat)
      5 initState).2 [some 7, some 8] rfl rfl⟩

/-- C5: within one run of `search_tweets`, for every upstream response
sequence, every budget and every fuel, no cursor value is used for a page
request more than once, and the cursor to be used next, once advanced to,
is already recorded in the seen-cursor set. -/
theorem C5_no_cursor_reuse {α κ : Type} [DecidableEq κ]
    (up : Nat → PageResponse α κ) (result_count fuel : Nat) :
    (search_tweets up result_count fuel).1.requests.Nodup ∧
      (∀ c : κ, (search_tweets up result_count fuel).1.pagination_token = some c →
        c ∈ (search_tweets up result_count fuel).1.pagination_tokens) :=
  runAux_nodup up result_count fuel initState
    ⟨List.nodup_nil, by simp [initState], fun c hc => by simp [initState] at hc,
      fun c hc => by simp [initState] at hc⟩

/-- Witness for C5 at the one-item-per-page upstream. -/
theorem C5_no_cursor_reuse_witness :
    (search_tweets (fun i => (⟨some (some i), some [some 0]⟩ :
        PageResponse Nat Nat)) 3 10).1.requests.Nodup ∧
      (∀ c : Nat, (search_tweets (fun i => (⟨some (some i), some [some 0]⟩ :
          PageResponse Nat Nat)) 3 10).1.pagination_token = some c →
        c ∈ (search_tweets (fun i => (⟨some (some i), some [some 0]⟩ :
          PageResponse Nat Nat)) 3 10).1.pagination_tokens) :=
  C5_no_cursor_reuse (fun i => (⟨some (some i), some [some 0]⟩ :
    PageResponse Nat Nat)) 3 10

/-- C6, counterexample: with `result_count = 1` (so `page_size = 1` and
the claimed bound is `1 + 1 - 1 = 1` item) an upstream page carrying 3
items makes `search_tweets` yield all 3 of them. -/
theorem C6_counterexample :
    (search_tweets (fun _ => (⟨some (some 0), some [some 1, some 2, some 3]⟩ :
        PageResponse Nat Nat)) 1 10).1.yielded.length = 3 ∧
      ¬((search_tweets (fun _ => (⟨some (some 0), some [some 1, some 2, some 3]⟩ :
        PageResponse Nat Nat)) 1 10).1.yielded.length
          ≤ 1 + page_size 1 - 1) := by
  decide

/-- C6 (amended): for every upstream behavior *whose pages each carry at
most `page_size result_count = min(100, result_count)` items* and every
`result_count ≥ 1`, the total number of items `search_tweets` yields is at
most `result_count + page_size result_count - 1`; without that hypothesis
the code yields every item of an oversized page and the bound fails. -/
theorem C6_yield_bound {α κ : Type} [DecidableEq κ]
    (up : Nat → PageResponse α κ) (result_count fuel : Nat)
    (h1 : 1 ≤ result_count)
    (hP : ∀ i items, (up i).data = some items →
      items.length ≤ page_size result_count) :
    (search_tweets up result_count fuel).1.yielded.length
      ≤ result_count + page_size result_count - 1 := by
  have hb := runAux_count_bound up result_count (page_size result_count) hP
    fuel initState (by simp [initState]) (Or.inl (by simp [initState]))
  have hps : 1 ≤ page_size result_count := by
    simp only [page_size]
    omega
  show (runAux up result_count fuel initState).1.yielded.length
    ≤ result_count + page_size result_count - 1
  omega

/-- Witness for C6 (amended) at a single-item-page upstream with
`result_count = 1`. -/
theorem C6_yield_bound_witness :
    (search_tweets (fun _ => (⟨some (some 0), some [some 5]⟩ :
        PageResponse Nat Nat)) 1 10).1.yielded.length
      ≤ 1 + page_size 1 - 1 :=
  C6_yield_bound (fun _ => (⟨some (some 0), some [some 5]⟩ :
    PageResponse Nat Nat)) 1 10 (by decide)
    (fun _ items h => by injection h with h2; subst h2; decide)

/-! ### Aggregation claims -/

theorem collectRows_fail_of_line (r : RawRecord) (hline : processLine r = none) :
    ∀ log : List (Option RawRecord), some r ∈ log → collectRows log = none := by
  intro log
  induction log with
  | nil => intro h; cases h
  | cons x rest ih =>
    intro hmem
    rcases List.mem_cons.mp hmem with h | h
    · rw [← h]
      simp [collectRows, hline]
    · cases x with
      | none => rfl
      | some d =>
        simp only [collectRows]
        cases hd : processLine d with
        | none => rfl
        | some p =>
          rcases p with ⟨ms, anns⟩
          rw [ih h]

theorem collectRows_fail_of_malformed :
    ∀ log : List (Option RawRecord), none ∈ log → collectRows log = none := by
  intro log
  induction log with
  | nil => intro h; cases h
  | cons x rest ih =>
    intro hmem
    rcases List.mem_cons.mp hmem with h | h
    · rw [← h]
      rfl
    · cases x with
      | none => rfl
      | some d =>
        simp only [collectRows]
        cases hd : processLine d with
        | none => rfl
        | some p =>
          rcases p with ⟨ms, anns⟩
          rw [ih h]

/-- C2 (the code contradicts the claim): any log containing a record whose
`entities` field is absent makes the whole `process_results` run fail —
the source calls `entities.get("annotations", [])` on the `None` returned
by `data.get("entities")`, raising `AttributeError` — instead of treating
the record as contributing zero mentions and zero annotations. -/
theorem C2_missing_entities_fatal (log : List (Option RawRecord))
    (r : RawRecord) (hmem : some r ∈ log) (hent : r.entities = none) :
    process_results log = none := by
  have hline : processLine r = none := by
    simp [processLine, hent]
  rw [process_results, collectRows_fail_of_line r hline log hmem]

/-- Witness for C2 at a one-record log whose record has no entities. -/
theorem C2_missing_entities_fatal_witness :
    some (⟨none, 1, 2⟩ : RawRecord) ∈ [some (⟨none, 1, 2⟩ : RawRecord)] ∧
      process_results [some (⟨none, 1, 2⟩ : RawRecord)] = none :=
  ⟨List.mem_singleton.mpr rfl,
    C2_missing_entities_fatal _ ⟨none, 1, 2⟩ (List.mem_singleton.mpr rfl) rfl⟩

/-- C3 (the code contradicts the claim): on an empty record log,
`process_results` fails instead of producing two empty summaries — the
mention table built from an empty row list has no columns, so the
`groupby("username")` inside `group_dataframe` raises `KeyError`. -/
theorem C3_empty_log_fails :
    process_results ([] : List (Option RawRecord)) = none := rfl

/-- C8: a log containing at least one malformed line (one that does not
parse as structured data) makes the whole aggregation run fail, and no
summary output is produced (all-or-nothing). -/
theorem C8_malformed_line_fatal (log : List (Option RawRecord))
    (hmem : none ∈ log) : process_results log = none := by
  rw [process_results, collectRows_fail_of_malformed log hmem]

/-- Witness for C8 at a log whose second line is malformed. -/
theorem C8_malformed_line_fatal_witness :
    (none ∈ [some (⟨some ⟨none, some [⟨some "alice"⟩]⟩, 1, 2⟩ : RawRecord), none]) ∧
      process_results
        [some (⟨some ⟨none, some [⟨some "alice"⟩]⟩, 1, 2⟩ : RawRecord), none] = none :=
  ⟨by simp, C8_malformed_line_fatal _ (by simp)⟩

/-- C9: aggregation is deterministic in the log content — two runs of
`process_results` over the same unchanged log produce identical output
byte strings.  In this embedding the whole pipeline (parsing, extraction,
grouping, sorting, CSV rendering) is a pure function of the log, mirroring
the source, which has no nondeterministic constructs on this path. -/
theorem C9_deterministic (log : List (Option RawRecord)) :
    process_results log = process_results log := rfl

/-- C10: for a record whose `entities` payload is present, every mention
sub-record and every annotation sub-record is counted as an occurrence —
none is skipped and no error is raised — and a mention lacking `username`
(or an annotation lacking `normalized_text`) is keyed by the empty string. -/
theorem C10_missing_subfield_empty_key (r : RawRecord) (e : Entities)
    (hent : r.entities = some e) :
    ∃ out, processLine r = some out ∧
      out.1.length = (e.mentions.getD []).length ∧
      out.2.length = (e.annotations.getD []).length ∧
      (∀ (j : Nat) (m : MentionRec), (e.mentions.getD [])[j]? = some m →
        m.username = none →
        ∃ row, out.1[j]? = some row ∧ row.username = "") ∧
      (∀ (j : Nat) (a : AnnotationRec), (e.annotations.getD [])[j]? = some a →
        a.normalized_text = none →
        ∃ row, out.2[j]? = some row ∧ row.normalized_text = "") := by
  rcases r with ⟨ent, created, tid⟩
  cases hent
  refine ⟨((e.mentions.getD []).map (fun mention =>
      (⟨mention.username.getD "", created, tid⟩ : MentionRow)),
    (e.annotations.getD []).map (fun ann =>
      (⟨ann.normalized_text.getD "", ann.annotation_type,
        created, tid⟩ : AnnotationRow))), ?_, ?_, ?_, ?_, ?_⟩
  · rfl
  · simp
  · simp
  · intro j m hj hm
    exact ⟨⟨m.username.getD "", created, tid⟩,
      by simp [List.getElem?_map, hj], by simp [hm]⟩
  · intro j a hj ha
    exact ⟨⟨a.normalized_text.getD "", a.annotation_type, created, tid⟩,
      by simp [List.getElem?_map, hj], by simp [ha]⟩

/-- Witness for C10 at a record with one type-only annotation and one
username-less mention. -/
theorem C10_missing_subfield_empty_key_witness :
    ∃ out, processLine (⟨some ⟨some [⟨some "T", none⟩], some [⟨none⟩]⟩, 3, 4⟩ :
        RawRecord) = some out ∧
      out.1.length = (((⟨some [⟨some "T", none⟩], some [⟨none⟩]⟩ :
        Entities)).mentions.getD []).length ∧
      out.2.length = (((⟨some [⟨some "T", none⟩], some [⟨none⟩]⟩ :
        Entities)).annotations.getD []).length ∧
      (∀ (j : Nat) (m : MentionRec),
        (((⟨some [⟨some "T", none⟩], some [⟨none⟩]⟩ :
          Entities)).mentions.getD [])[j]? = some m →
        m.username = none →
        ∃ row, out.1[j]? = some row ∧ row.username = "") ∧
      (∀ (j : Nat) (a : AnnotationRec),
        (((⟨some [⟨some "T", none⟩], some [⟨none⟩]⟩ :
          Entities)).annotations.getD [])[j]? = some a →
        a.normalized_text = none →
        ∃ row, out.2[j]? = some row ∧ row.normalized_text = "") :=
  C10_missing_subfield_empty_key
    (⟨some ⟨some [⟨some "T", none⟩], some [⟨none⟩]⟩, 3, 4⟩ : RawRecord)
    (⟨some [⟨some "T", none⟩], some [⟨none⟩]⟩ : Entities) rfl

/-! ### Grouping correctness (C7) -/

theorem natMax_cons (x : Nat) (l : List Nat) :
    natMax (x :: l) = max x (natMax l) := rfl

theorem natMax_mem : ∀ l : List Nat, l ≠ [] → natMax l ∈ l := by
  intro l
  induction l with
  | nil => intro h; exact absurd rfl h
  | cons x rest ih =>
    intro _
    rw [natMax_cons]
    rcases max_choice x (natMax rest) with h | h
    · rw [h]; exact List.mem_cons_self x rest
    · rw [h]
      cases rest with
      | nil =>
        have h0 : natMax ([] : List Nat) = 0 := rfl
        rw [h0] at h ⊢
        have : x = 0 := by omega
        simp [this]
      | cons y ys => exact List.mem_cons_of_mem x (ih (by simp))

theorem le_natMax : ∀ {l : List Nat} {x : Nat}, x ∈ l → x ≤ natMax l := by
  intro l
  induction l with
  | nil => intro x h; cases h
  | cons y rest ih =>
    intro x h
    rw [natMax_cons]
    rcases List.mem_cons.mp h with h | h
    · rw [h]; exact Nat.le_max_left _ _
    · exact Nat.le_trans (ih h) (Nat.le_max_right _ _)

/-- C7: for every non-empty list of extracted occurrences,
`group_dataframe` succeeds and produces, per group: `count` equal to the
number of occurrences of that key across the whole input (so the counts
over all groups sum to the total number of occurrences), a
`last_tweeted_at` that is the maximum `tweet_created_at` of the group, a
`last_tweet_url` rendered from the maximum `tweet_id` of the group, and
rows sorted descending by `count`. -/
theorem C7_grouping_correct {ρ : Type} (rows : List ρ) (f : ρ → String)
    (created tid : ρ → Nat) (hne : rows ≠ []) :
    ∃ out, group_dataframe rows f created tid = some out ∧
      (∀ r ∈ out,
        r.count = (rows.filter (fun x => f x == r.key)).length ∧
        (r.last_tweeted_at ∈ (rows.filter (fun x => f x == r.key)).map created ∧
          ∀ y ∈ (rows.filter (fun x => f x == r.key)).map created,
            y ≤ r.last_tweeted_at) ∧
        (∃ m, r.last_tweet_url = tweet_url m ∧
          m ∈ (rows.filter (fun x => f x == r.key)).map tid ∧
          ∀ y ∈ (rows.filter (fun x => f x == r.key)).map tid, y ≤ m)) ∧
      (out.map SummaryRow.count).sum = rows.length ∧
      List.Pairwise (fun a b : SummaryRow => b.count ≤ a.count) out := by
  cases rows with
  | nil => exact absurd rfl hne
  | cons r0 rest =>
    simp only [group_dataframe]
    refine ⟨_, rfl, ?_, ?_, ?_⟩
    · -- per-group statistics
      intro r hr
      rw [List.mem_map] at hr
      obtain ⟨a, ha, rfl⟩ := hr
      have ha2 : a ∈ (((r0 :: rest).map f).dedup.map (fun k =>
          let grp := (r0 :: rest).filter (fun x => f x == k)
          (⟨k, grp.length, natMax (grp.map created),
            natMax (grp.map tid)⟩ : AggRow))) :=
        (List.perm_insertionSort countDesc _).mem_iff.mp ha
      rw [List.mem_map] at ha2
      obtain ⟨k, hk, rfl⟩ := ha2
      have hkmem : k ∈ (r0 :: rest).map f := List.mem_dedup.mp hk
      rw [List.mem_map] at hkmem
      obtain ⟨x0, hx0, hfx0⟩ := hkmem
      have hgrp : x0 ∈ (r0 :: rest).filter (fun x => f x == k) :=
        List.mem_filter.mpr ⟨hx0, by simp [hfx0]⟩
      have hgrpne : (r0 :: rest).filter (fun x => f x == k) ≠ [] :=
        List.ne_nil_of_mem hgrp
      refine ⟨rfl, ⟨?_, ?_⟩, natMax _, rfl, ?_, ?_⟩
      · exact natMax_mem _ (by simpa using hgrpne)
      · intro y hy
        exact le_natMax hy
      · exact natMax_mem _ (by simpa using hgrpne)
      · intro y hy
        exact le_natMax hy
    · -- counts sum to the total number of occurrences
      have h1 : ∀ (l : List AggRow) (g : AggRow → SummaryRow),
          (l.map g).map SummaryRow.count = l.map (fun a => (g a).count) := by
        intro l g
        rw [List.map_map]
        rfl
      rw [h1]
      have h2 := (List.perm_insertionSort countDesc
        (((r0 :: rest).map f).dedup.map (fun k =>
          let grp := (r0 :: rest).filter (fun x => f x == k)
          (⟨k, grp.length, natMax (grp.map created),
            natMax (grp.map tid)⟩ : AggRow)))).map (fun a : AggRow => a.count)
      rw [h2.sum_eq, List.map_map]
      have h3 : ∀ k, ((r0 :: rest).filter (fun x => f x == k)).length
          = ((r0 :: rest).map f).count k := by
        intro k
        rw [List.count_eq_countP, List.countP_map,
          ← List.countP_eq_length_filter]
        rfl
      have h4 : (((r0 :: rest).map f).dedup.map
            ((fun a : AggRow => a.count) ∘ (fun k =>
              let grp := (r0 :: rest).filter (fun x => f x == k)
              (⟨k, grp.length, natMax (grp.map created),
                natMax (grp.map tid)⟩ : AggRow))))
          = (((r0 :: rest).map f).dedup.map
              (fun k => ((r0 :: rest).map f).count k)) := by
        refine List.map_congr_left ?_
        intro k _
        exact h3 k
      rw [h4, List.sum_map_count_dedup_eq_length, List.length_map]
    · -- sorted descending by count
      refine List.pairwise_map.mpr ?_
      exact List.sorted_insertionSort countDesc _

/-- Witness for C7 at a concrete two-key mention table. -/
theorem C7_grouping_correct_witness :
    ∃ out, group_dataframe [(⟨"a", 5, 9⟩ : MentionRow), ⟨"b", 1, 3⟩, ⟨"a", 2, 11⟩]
        MentionRow.username MentionRow.tweet_created_at MentionRow.tweet_id
        = some out ∧
      (∀ r ∈ out,
        r.count = ([(⟨"a", 5, 9⟩ : MentionRow), ⟨"b", 1, 3⟩, ⟨"a", 2, 11⟩].filter
          (fun x => x.username == r.key)).length ∧
        (r.last_tweeted_at ∈ ([(⟨"a", 5, 9⟩ : MentionRow), ⟨"b", 1, 3⟩,
            ⟨"a", 2, 11⟩].filter (fun x => x.username == r.key)).map
            MentionRow.tweet_created_at ∧
          ∀ y ∈ ([(⟨"a", 5, 9⟩ : MentionRow), ⟨"b", 1, 3⟩, ⟨"a", 2, 11⟩].filter
            (fun x => x.username == r.key)).map MentionRow.tweet_created_at,
            y ≤ r.last_tweeted_at) ∧
        (∃ m, r.last_tweet_url = tweet_url m ∧
          m ∈ ([(⟨"a", 5, 9⟩ : MentionRow), ⟨"b", 1, 3⟩, ⟨"a", 2, 11⟩].filter
            (fun x => x.username == r.key)).map MentionRow.tweet_id ∧
          ∀ y ∈ ([(⟨"a", 5, 9⟩ : MentionRow), ⟨"b", 1, 3⟩, ⟨"a", 2, 11⟩].filter
            (fun x => x.username == r.key)).map MentionRow.tweet_id, y ≤ m)) ∧
      (out.map SummaryRow.count).sum
        = [(⟨"a", 5, 9⟩ : MentionRow), ⟨"b", 1, 3⟩, ⟨"a", 2, 11⟩].length ∧
      List.Pairwise (fun a b : SummaryRow => b.count ≤ a.count) out :=
  C7_grouping_correct [(⟨"a", 5, 9⟩ : MentionRow), ⟨"b", 1, 3⟩, ⟨"a", 2, 11⟩]
    MentionRow.username MentionRow.tweet_created_at MentionRow.tweet_id
    (by simp)

end TwitterApi
